import Mathlib

/-!
Verification development for the `when-society-falls` ECS runtime.

The Python source under `src/src/ecs/` provides `Entity` (entity.py) and
`Component` (component.py).  The `World` and `System` classes are imported by
`src/src/ecs/__init__.py` but their files are absent from the repository, so
the World-side index maintenance (`_entity_component_added`,
`_entity_component_removed`, `_entity_tag_added`, `_entity_tag_removed`,
`_entity_active_changed`, `_remove_entity`, `query`) is modelled from the
spec, as flagged in each definition's doc comment.  Everything else is a
direct shallow embedding of the Python code.

Modelling choices:
- component-type tags and entity/component identities are `Nat`;
- a Python dict with unique keys becomes an association list
  `List (Nat × Nat)`;
- the Python heap of `Entity` / `Component` objects becomes two partial maps
  `Nat → Option Entity` and `Nat → Option Component`: destroying an entity
  removes it from the World's registry and indexes but the object itself
  (and any component back-reference to it) survives, exactly as in Python;
- the `on_add` / `on_remove` lifecycle hooks are `pass` in the base
  `Component` class; to reason about the point in the operation at which a
  hook fires, the attach/detach operations are additionally given in a
  hook-parametrised form, the plain form being the instance with the
  identity hook.
-/

namespace ECS

/-- Update a partial map at one key (the embedding of a Python attribute or
dict-entry assignment on a heap of objects). -/
def upd {α : Type} (f : Nat → Option α) (k : Nat) (v : Option α) : Nat → Option α :=
  fun k' => if k' = k then v else f k'

/-- Lookup in an association list with `Nat` keys (Python `d.get(k)` /
`d[k]`). -/
def alookup : List (Nat × Nat) → Nat → Option Nat
  | [], _ => none
  | p :: ps, k => if p.1 = k then some p.2 else alookup ps k

/-- Delete a key from an association list (Python `del d[k]`). -/
def aerase (l : List (Nat × Nat)) (k : Nat) : List (Nat × Nat) :=
  l.filter (fun p => p.1 ≠ k)

/-- A Python value as far as truthiness of an `entity_id` argument is
concerned: `None`, an int, a string, or a bool (component.py / entity.py do
not need more). -/
inductive PyVal where
  | vNone : PyVal
  | vInt : Int → PyVal
  | vStr : String → PyVal
  | vBool : Bool → PyVal
deriving DecidableEq

/-- Python truthiness for `PyVal`: `None`, `0`, `""` and `False` are falsy,
everything else truthy. -/
def PyVal.truthy : PyVal → Bool
  | .vNone => false
  | .vInt n => decide (n ≠ 0)
  | .vStr s => decide (s ≠ "")
  | .vBool b => b

/-- Embedding of the `Entity.__init__` line `self.id = entity_id or str(uuid.uuid4())`:
Python `or` yields the left operand when truthy, otherwise the right one.
The freshly generated UUID string is a parameter because `uuid.uuid4()` is
nondeterministic. -/
def entityInitId (entity_id : PyVal) (fresh_uuid : String) : PyVal :=
  if entity_id.truthy then entity_id else .vStr fresh_uuid

/-- A `Component` object (component.py): its concrete type is its type tag
(`get_component_type` returns the class), and `self.entity` is the
back-reference set by `_set_entity`, `None` initially. -/
structure Component where
  ctype : Nat
  entity : Option Nat
deriving DecidableEq

/-- An `Entity` object (entity.py): id, component-type → component-instance
mapping, tag set and active flag (`__init__` lines 26–30).  The owning world
is implicit: all operations below act on the single `World` state. -/
structure Entity where
  id : PyVal
  components : List (Nat × Nat)
  tags : List Nat
  active : Bool
deriving DecidableEq

/-- The whole mutable state: the heap of `Entity` and `Component` objects,
plus the World's registry and indexes.  `live`, `typeIndex` and `tagIndex`
are the World side, modelled from the spec (world.py is absent from the
repository): id → Entity registry, component-type → entity-id index,
tag → entity-id index. -/
structure World where
  entityStore : Nat → Option Entity
  comps : Nat → Option Component
  live : List Nat
  typeIndex : Nat → List Nat
  tagIndex : Nat → List Nat

/-- The world with no entities and no components. -/
def emptyWorld : World :=
  { entityStore := fun _ => none
    comps := fun _ => none
    live := []
    typeIndex := fun _ => []
    tagIndex := fun _ => [] }

/-- Errors surfaced by the operations.  `duplicateComponent` embeds the
`ValueError` raised by `Entity.add_component` (line 46), the
`DuplicateComponentError` of the spec's error taxonomy.  `invalidRef` is an
artifact of the heap model: it marks an operation applied to an entity or
component id with no object behind it, which cannot arise in Python. -/
inductive ECSError where
  | duplicateComponent : Nat → ECSError
  | invalidRef : ECSError
deriving DecidableEq

/-- Modelled from the spec: `World._entity_component_added` (world.py is
absent).  Per spec §4.2 the hook updates exactly the affected index: it
records the entity id in the per-type index for the component's type. -/
def entityComponentAdded (w : World) (eid ctype : Nat) : World :=
  { w with typeIndex := fun t => if t = ctype then eid :: w.typeIndex t else w.typeIndex t }

/-- Modelled from the spec: `World._entity_component_removed` (world.py is
absent).  It erases the entity id from the per-type index for the removed
component's type, and touches nothing else. -/
def entityComponentRemoved (w : World) (eid ctype : Nat) : World :=
  { w with typeIndex := fun t =>
      if t = ctype then (w.typeIndex t).filter (fun e => e ≠ eid) else w.typeIndex t }

/-- Modelled from the spec: `World._entity_tag_added` (world.py is absent).
It records the entity id in the per-tag index. -/
def entityTagAdded (w : World) (eid tag : Nat) : World :=
  { w with tagIndex := fun t => if t = tag then eid :: w.tagIndex t else w.tagIndex t }

/-- Modelled from the spec: `World._entity_tag_removed` (world.py is
absent).  It erases the entity id from the per-tag index. -/
def entityTagRemoved (w : World) (eid tag : Nat) : World :=
  { w with tagIndex := fun t =>
      if t = tag then (w.tagIndex t).filter (fun e => e ≠ eid) else w.tagIndex t }

/-- Modelled from the spec: `World._entity_active_changed` (world.py is
absent).  The spec leaves the active-set representation free provided query
correctness holds; here `query` reads the authoritative `active` flag
directly, so the notification maintains no extra state. -/
def entityActiveChanged (w : World) (_eid : Nat) (_active : Bool) : World :=
  w

/-- Modelled from the spec: `World._remove_entity` (world.py is absent).
Per spec §4.1/§8 it erases the entity from the registry and from every
index. -/
def removeEntity (w : World) (eid : Nat) : World :=
  { w with
    live := w.live.filter (fun e => e ≠ eid)
    typeIndex := fun t => (w.typeIndex t).filter (fun e => e ≠ eid)
    tagIndex := fun t => (w.tagIndex t).filter (fun e => e ≠ eid) }

/-- Modelled from the spec: `World.create_entity` (world.py is absent).
It constructs an `Entity` exactly as `Entity.__init__` (entity.py lines
17–30) does — id from `entity_id or str(uuid.uuid4())`, empty components,
empty tags, active — and registers it in the World's registry. -/
def createEntity (w : World) (eid : Nat) (entity_id : PyVal) (fresh_uuid : String) : World :=
  { w with
    entityStore := upd w.entityStore eid
      (some { id := entityInitId entity_id fresh_uuid
              components := []
              tags := []
              active := true })
    live := eid :: w.live }

/-- Modelled from the spec: `World.query(required_types, include_inactive)`
(world.py is absent).  Per spec §4.2 it returns entities whose component
set is a superset of the required types, computed as the intersection of
the per-type index sets (the registry when no type is required), excluding
inactive entities unless `include_inactive`. -/
def query (w : World) (required : List Nat) (include_inactive : Bool) : List Nat :=
  let candidates :=
    match required with
    | [] => w.live
    | t :: ts => ts.foldl (fun acc t' => acc.filter (fun e => e ∈ w.typeIndex t')) (w.typeIndex t)
  candidates.filter (fun eid =>
    match w.entityStore eid with
    | some e => include_inactive || e.active
    | none => false)

/-- Embedding of `Component.__init__` (component.py lines 16–18): a fresh component
object of the given concrete type, `self.entity = None`, placed in the
heap at id `cid`. -/
def newComponent (w : World) (cid ctype : Nat) : World :=
  { w with comps := upd w.comps cid (some { ctype := ctype, entity := none }) }

/-- Embedding of `Component.get_entity` (component.py lines 31–38): returns
`self.entity`, the back-reference to the owning entity. -/
def get_entity (c : Component) : Option Nat :=
  c.entity

/-- Embedding of `Entity.add_component` (entity.py lines 32–60), hook-parametrised: the
`component.on_add()` call at line 58 is an arbitrary state transformer
`hook` applied to the state in which the entity-component link and the
World's index update are already established.  Returns the post state and
either the raised error or the returned entity (`return self`, line 60).
On error the state is returned unchanged, as the `raise` at line 46 happens
before any mutation. -/
def add_componentH (hook : World → Nat → Nat → World) (w : World) (eid cid : Nat) :
    World × Except ECSError Nat :=
  match w.entityStore eid, w.comps cid with
  | some e, some c =>
    let ctype := c.ctype
    if (alookup e.components ctype).isSome then
      (w, .error (.duplicateComponent ctype))
    else
      let w1 := { w with comps := upd w.comps cid (some { c with entity := some eid }) }
      let w2 := { w1 with entityStore := upd w1.entityStore eid (some { e with components := (ctype, cid) :: e.components }) }
      let w3 := entityComponentAdded w2 eid ctype
      (hook w3 eid cid, .ok eid)
  | _, _ => (w, .error .invalidRef)

/-- Embedding of `Entity.add_component` with the base class's `on_add` hook, which is
`pass` (component.py line 47). -/
def add_component (w : World) (eid cid : Nat) : World × Except ECSError Nat :=
  add_componentH (fun w' _ _ => w') w eid cid

/-- The state in which the `on_add` hook of `add_component` runs: component
back-reference set, component linked into the entity's mapping, World type
index updated (entity.py lines 49–55). -/
def addPreHookState (w : World) (eid cid : Nat) (e : Entity) (c : Component) : World :=
  entityComponentAdded
    { w with
      comps := upd w.comps cid (some { c with entity := some eid })
      entityStore := upd w.entityStore eid
        (some { e with components := (c.ctype, cid) :: e.components }) }
    eid c.ctype

/-- The tail of `Entity.remove_component` after the `on_remove` hook has run
(entity.py lines 79–82), as a function of the hook's result state: the
deletion of the mapping entry, then the World's index update.  The entity is
looked up again because the hook may have mutated it, exactly as the live
Python dict would reflect mutations made by `on_remove`. -/
def removePostHook (wh : World) (eid ctype : Nat) : World :=
  let w1 :=
    match wh.entityStore eid with
    | some e' => { wh with entityStore := upd wh.entityStore eid (some { e' with components := aerase e'.components ctype }) }
    | none => wh
  entityComponentRemoved w1 eid ctype

/-- Embedding of `Entity.remove_component` (entity.py lines 62–86), hook-parametrised:
the `component.on_remove()` call at line 76 is an arbitrary state
transformer applied to the state in which the entity-component link is
still intact; the deletion (line 79) and the World index update (line 82)
follow on the hook's result.  Returns the post state and the detached
component id, `none` when no component of that type exists (line 86). -/
def remove_componentH (hook : World → Nat → Nat → World) (w : World) (eid ctype : Nat) :
    World × Option Nat :=
  match w.entityStore eid with
  | none => (w, none)
  | some e =>
    match alookup e.components ctype with
    | none => (w, none)
    | some cid =>
      (removePostHook (hook w eid cid) eid ctype, some cid)

/-- Embedding of `Entity.remove_component` with the base class's `on_remove` hook, which
is `pass` (component.py line 56). -/
def remove_component (w : World) (eid ctype : Nat) : World × Option Nat :=
  remove_componentH (fun w' _ _ => w') w eid ctype

/-- Embedding of `Entity.add_tag` (entity.py lines 126–138): `self.tags.add(tag)` then
`self.world._entity_tag_added(self, tag)`. -/
def add_tag (w : World) (eid tag : Nat) : World :=
  match w.entityStore eid with
  | none => w
  | some e =>
    let w1 := { w with entityStore := upd w.entityStore eid (some { e with tags := if tag ∈ e.tags then e.tags else tag :: e.tags }) }
    entityTagAdded w1 eid tag

/-- Embedding of `Entity.remove_tag` (entity.py lines 140–154): removes the tag and
notifies the world only when it was present. -/
def remove_tag (w : World) (eid tag : Nat) : World × Bool :=
  match w.entityStore eid with
  | none => (w, false)
  | some e =>
    if tag ∈ e.tags then
      let w1 := { w with entityStore := upd w.entityStore eid (some { e with tags := e.tags.filter (fun t => t ≠ tag) }) }
      (entityTagRemoved w1 eid tag, true)
    else
      (w, false)

/-- Embedding of `Entity.set_active` (entity.py lines 191–206): a no-op when the value is
unchanged, otherwise flips the flag and notifies the world. -/
def set_active (w : World) (eid : Nat) (active : Bool) : World :=
  match w.entityStore eid with
  | none => w
  | some e =>
    if e.active ≠ active then
      let w1 := { w with entityStore := upd w.entityStore eid (some { e with active := active }) }
      entityActiveChanged w1 eid active
    else
      w

/-- Embedding of `Entity.destroy` (entity.py lines 168–180): one full `remove_component`
per component type in the snapshot `list(self.components.keys())`, each to
completion before the next, then `self.world._remove_entity(self)`. -/
def destroy (w : World) (eid : Nat) : World :=
  match w.entityStore eid with
  | none => w
  | some e =>
    let keys := e.components.map (fun p => p.1)
    let w1 := keys.foldl (fun wa t => (remove_component wa eid t).1) w
    removeEntity w1 eid

/-- One user-level operation of the kind quantified over by the spec's
index-consistency property: attach, detach, add/remove tag, or set the
active flag. -/
inductive Op where
  | attach : Nat → Nat → Op
  | detach : Nat → Nat → Op
  | addTagOp : Nat → Nat → Op
  | removeTagOp : Nat → Nat → Op
  | activate : Nat → Bool → Op

/-- Apply one operation to the world, discarding the returned values. -/
def applyOp (w : World) : Op → World
  | .attach eid cid => (add_component w eid cid).1
  | .detach eid t => (remove_component w eid t).1
  | .addTagOp eid t => add_tag w eid t
  | .removeTagOp eid t => (remove_tag w eid t).1
  | .activate eid b => set_active w eid b

/-- Apply a sequence of operations left to right. -/
def applyOps (w : World) (ops : List Op) : World :=
  ops.foldl applyOp w

/-- Consistency of the World's per-type index with the authoritative
entity-component state: an entity id is in the index for type `T` exactly
when the stored entity holds a component of type `T`. -/
def IndexInv (w : World) : Prop :=
  ∀ T eid, eid ∈ w.typeIndex T ↔
    ∃ e, w.entityStore eid = some e ∧ (alookup e.components T).isSome = true

end ECS

namespace Player

/-- The input-state bookkeeping of `PlayerSystem` (player_system.py lines
31–34): currently pressed keys, keys newly pressed this frame, and the
previous frame's pressed keys.  A key is in `keys_pressed` exactly when it
is down, mirroring the dict comprehension that keeps only pressed keys. -/
structure InputState where
  keys_pressed : List Nat
  keys_just_pressed : List Nat
  previous_keys : List Nat
deriving DecidableEq

/-- Embedding of `PlayerSystem._update_input_state` (player_system.py lines 67–79):
stores the previous pressed set, takes the current snapshot `current`, and
computes the just-pressed set as the keys pressed now but not previously. -/
def updateInputState (st : InputState) (current : List Nat) : InputState :=
  { keys_pressed := current
    keys_just_pressed := current.filter (fun k => decide (k ∉ st.keys_pressed))
    previous_keys := st.keys_pressed }

/-- Embedding of `PlayerController.process_interaction` (player_controller.py lines
105–119): returns `true`, invoking the callback, exactly when the interact
key is in the just-pressed set and a callback is registered
(`self.on_interact` is not `None`). -/
def process_interaction (interact_key : Nat) (has_callback : Bool)
    (keys_just_pressed : List Nat) : Bool :=
  decide (interact_key ∈ keys_just_pressed) && has_callback

/-- The number of times the interaction callback is invoked in one frame:
`process_interaction` calls it once when it returns `true`, never
otherwise. -/
def interactionCount (interact_key : Nat) (has_callback : Bool)
    (keys_just_pressed : List Nat) : Nat :=
  if process_interaction interact_key has_callback keys_just_pressed then 1 else 0

/-- The configuration fields of `PlayerController` (player_controller.py
lines 29–39), with Python floats idealised as real numbers and the pygame
key constants as naturals. -/
structure PCConfig where
  move_speed : ℝ
  sprint_multiplier : ℝ
  interaction_range : ℝ
  key_up : Nat
  key_down : Nat
  key_left : Nat
  key_right : Nat
  sprint_key : Nat
  interact_key : Nat

/-- The dataclass defaults: `move_speed=150.0`, `sprint_multiplier=1.5`,
`interaction_range=100.0`, WASD movement keys (`K_w=119`, `K_s=115`,
`K_a=97`, `K_d=100`), `K_LSHIFT=1073742049`, `K_e=101`. -/
def defaultPCConfig : PCConfig :=
  { move_speed := 150
    sprint_multiplier := 1.5
    interaction_range := 100
    key_up := 119
    key_down := 115
    key_left := 97
    key_right := 100
    sprint_key := 1073742049
    interact_key := 101 }

/-- The mutable state fields of `PlayerController` (player_controller.py
lines 42–45).  `is_moving` is the truth of the float comparison
`move_x != 0.0 or move_y != 0.0`, kept as a proposition over the idealised
reals. -/
structure PCState where
  is_moving : Prop
  is_sprinting : Bool
  move_direction : ℝ × ℝ
  facing_direction : ℝ × ℝ

/-- The dataclass defaults of the state fields: not moving, not sprinting,
no movement direction, facing down `(0.0, 1.0)`. -/
def initialPCState : PCState :=
  { is_moving := False
    is_sprinting := false
    move_direction := (0, 0)
    facing_direction := (0, 1) }

open scoped Classical in
/-- Embedding of `PlayerController.process_input` (player_controller.py lines 55–103)
over idealised reals: accumulates a movement direction from the four
movement keys (updating the facing direction as the code does), normalises
a diagonal direction by dividing by `(x**2 + y**2)**0.5`, applies the
sprint multiplier when the sprint key is down, and returns the updated
state together with the displacement `(move_x, move_y)` scaled by speed and
`dt`. -/
noncomputable def process_input (cfg : PCConfig) (st : PCState) (dt : ℝ)
    (keys : Nat → Bool) : PCState × ℝ × ℝ :=
  let md0 : ℝ × ℝ := (0, 0)
  let md1 := if keys cfg.key_up then (md0.1, md0.2 - 1) else md0
  let fd1 := if keys cfg.key_up then ((0 : ℝ), (-1 : ℝ)) else st.facing_direction
  let md2 := if keys cfg.key_down then (md1.1, md1.2 + 1) else md1
  let fd2 := if keys cfg.key_down then ((0 : ℝ), (1 : ℝ)) else fd1
  let md3 := if keys cfg.key_left then (md2.1 - 1, md2.2) else md2
  let fd3 := if keys cfg.key_left then ((-1 : ℝ), (0 : ℝ)) else fd2
  let md4 := if keys cfg.key_right then (md3.1 + 1, md3.2) else md3
  let fd4 := if keys cfg.key_right then ((1 : ℝ), (0 : ℝ)) else fd3
  let md5 :=
    if md4.1 ≠ 0 ∧ md4.2 ≠ 0 then
      (md4.1 / Real.sqrt (md4.1 ^ 2 + md4.2 ^ 2), md4.2 / Real.sqrt (md4.1 ^ 2 + md4.2 ^ 2))
    else md4
  let sprinting := keys cfg.sprint_key
  let speed := if sprinting then cfg.move_speed * cfg.sprint_multiplier else cfg.move_speed
  let move_x := md5.1 * speed * dt
  let move_y := md5.2 * speed * dt
  ({ is_moving := move_x ≠ 0 ∨ move_y ≠ 0
     is_sprinting := sprinting
     move_direction := md5
     facing_direction := fd4 }, move_x, move_y)

/-- The key snapshot with simultaneous "up" (`K_w`) and "right" (`K_d`)
pressed and nothing else. -/
def diagKeys : Nat → Bool :=
  fun k => k == 119 || k == 100

/-- The displacement returned by `process_input` for the diagonal snapshot
with the default configuration, `dt = 1`, from the initial state. -/
noncomputable def diagDisplacement : ℝ × ℝ :=
  (process_input defaultPCConfig initialPCState 1 diagKeys).2

end Player

namespace ECS

/-- A sample world with two fresh entities (ids 1 and 2). -/
def wTwo : World :=
  createEntity (createEntity emptyWorld 1 .vNone "u1") 2 .vNone "u2"

/-- The world `wTwo` plus a fresh unattached component (id 7, type 3). -/
def wComp : World :=
  newComponent wTwo 7 3

/-- The world `wComp` after attaching component 7 to entity 1. -/
def wAttached : World :=
  (add_component wComp 1 7).1

/-- The world `wAttached` plus a second fresh component of the same type 3 (id 8). -/
def wDup : World :=
  newComponent wAttached 8 3

theorem alookup_aerase_self (l : List (Nat × Nat)) (k : Nat) :
    alookup (aerase l k) k = none := by
  induction l with
  | nil => rfl
  | cons p ps ih =>
    rcases eq_or_ne p.1 k with h | h
    · simpa [aerase, List.filter_cons, h] using ih
    · simpa [aerase, List.filter_cons, h, alookup] using ih

theorem alookup_aerase_ne (l : List (Nat × Nat)) (k k' : Nat) (h : k' ≠ k) :
    alookup (aerase l k) k' = alookup l k' := by
  induction l with
  | nil => rfl
  | cons p ps ih =>
    rcases eq_or_ne p.1 k with hp | hp
    · have hp' : ¬ (k = k') := fun hk => h hk.symm
      simpa [aerase, List.filter_cons, hp, alookup, hp'] using ih
    · by_cases hk : p.1 = k'
      · simp [aerase, List.filter_cons, hp, alookup, hk, h]
      · simpa [aerase, List.filter_cons, hp, alookup, hk] using ih

theorem aerase_of_alookup_none (l : List (Nat × Nat)) (k : Nat)
    (h : alookup l k = none) : aerase l k = l := by
  induction l with
  | nil => rfl
  | cons p ps ih =>
    rcases eq_or_ne p.1 k with hp | hp
    · simp [alookup, hp] at h
    · simp only [alookup, if_neg hp] at h
      have h2 := ih h
      simp only [aerase] at h2 ⊢
      rw [List.filter_cons, if_pos (by simp [hp]), h2]

/-- Claim C10: `Entity.__init__` ignores a falsy supplied identifier (`None`,
`0`, `""`, `False`): the id becomes the freshly generated UUID string; only
a truthy supplied identifier is used as-is. -/
theorem entityInitId_falsy_fresh (v : PyVal) (u : String) :
    (v.truthy = false → entityInitId v u = .vStr u) ∧
    (v.truthy = true → entityInitId v u = v) := by
  constructor <;> intro h <;> simp [entityInitId, h]

/-- Witness for C10 at the falsy identifiers `0`, `""`, `False` and the
truthy identifier `"custom"`. -/
theorem entityInitId_falsy_fresh_witness :
    entityInitId (.vInt 0) "fresh-uuid" = .vStr "fresh-uuid" ∧
    entityInitId (.vStr "") "fresh-uuid" = .vStr "fresh-uuid" ∧
    entityInitId (.vBool false) "fresh-uuid" = .vStr "fresh-uuid" ∧
    entityInitId (.vStr "custom") "fresh-uuid" = .vStr "custom" :=
  ⟨(entityInitId_falsy_fresh (.vInt 0) "fresh-uuid").1 (by decide),
   (entityInitId_falsy_fresh (.vStr "") "fresh-uuid").1 (by decide),
   (entityInitId_falsy_fresh (.vBool false) "fresh-uuid").1 (by decide),
   (entityInitId_falsy_fresh (.vStr "custom") "fresh-uuid").2 (by decide)⟩

/-- Claim C2: Attaching a second component of an already-present type fails
with the duplicate-component error and returns the world unchanged — in
particular the entity's component mapping, tags and active flag are
untouched and no hook runs, whatever the `on_add` hook is: the rejection
happens before any link or index mutation. -/
theorem add_component_duplicate_rejected (hook : World → Nat → Nat → World)
    (w : World) (eid cid cid0 : Nat) (e : Entity) (c : Component)
    (he : w.entityStore eid = some e) (hc : w.comps cid = some c)
    (hdup : alookup e.components c.ctype = some cid0) :
    add_componentH hook w eid cid = (w, .error (.duplicateComponent c.ctype)) := by
  simp [add_componentH, he, hc, hdup]

/-- Witness for C2: in `wDup`, entity 1 already holds component 7 of type 3
and component 8 has the same type, so attaching 8 is rejected and the world
is returned unchanged. -/
theorem add_component_duplicate_rejected_witness :
    add_componentH (fun w' _ _ => w') wDup 1 8 =
      (wDup, .error (.duplicateComponent 3)) :=
  add_component_duplicate_rejected (fun w' _ _ => w') wDup 1 8 7
    { id := .vStr "u1", components := [(3, 7)], tags := [], active := true }
    { ctype := 3, entity := none }
    (by decide) (by decide) (by decide)

/-- Claim C3 counterexample: in `wAttached`, component 7 is attached to
entity 1, yet attaching it to entity 2 succeeds (`ok`, no error), its
back-reference is reassigned to entity 2, and it then sits in both
entities' component mappings. -/
theorem second_attach_no_error :
    (add_component wAttached 2 7).2 = Except.ok 2 ∧
    (add_component wAttached 2 7).1.comps 7 = some { ctype := 3, entity := some 2 } ∧
    ((add_component wAttached 2 7).1.entityStore 1).map Entity.components = some [(3, 7)] ∧
    ((add_component wAttached 2 7).1.entityStore 2).map Entity.components = some [(3, 7)] := by
  refine ⟨rfl, rfl, rfl, rfl⟩

/-- Claim C3 amended: `add_component` performs no already-attached check.
Attaching a component instance that is attached to `e1` onto a different
entity `e2` (whose mapping lacks the type) succeeds, reassigns the
instance's back-reference to `e2`, and leaves the instance in `e1`'s
mapping, so the instance ends up shared by two entities. -/
theorem add_component_attached_instance (w : World) (e1 e2 cid : Nat)
    (ent1 ent2 : Entity) (c : Component)
    (h1 : w.entityStore e1 = some ent1) (h2 : w.entityStore e2 = some ent2)
    (hne : e1 ≠ e2)
    (hc : w.comps cid = some c) (_hatt : c.entity = some e1)
    (hin1 : alookup ent1.components c.ctype = some cid)
    (hnot2 : alookup ent2.components c.ctype = none) :
    (add_component w e2 cid).2 = .ok e2 ∧
    (add_component w e2 cid).1.comps cid = some { c with entity := some e2 } ∧
    (add_component w e2 cid).1.entityStore e1 = some ent1 ∧
    alookup ent1.components c.ctype = some cid := by
  refine ⟨?_, ?_, ?_, hin1⟩ <;>
    simp [add_component, add_componentH, h1, h2, hne, hc, hnot2,
      entityComponentAdded, upd]

/-- Witness for the amended C3 on the concrete world `wAttached`. -/
theorem add_component_attached_instance_witness :
    (add_component wAttached 2 7).2 = .ok 2 ∧
    (add_component wAttached 2 7).1.comps 7 = some { ctype := 3, entity := some 2 } ∧
    (add_component wAttached 2 7).1.entityStore 1 =
      some { id := .vStr "u1", components := [(3, 7)], tags := [], active := true } ∧
    alookup [(3, 7)] 3 = some 7 := by
  have h := add_component_attached_instance wAttached 1 2 7
    { id := .vStr "u1", components := [(3, 7)], tags := [], active := true }
    { id := .vStr "u2", components := [], tags := [], active := true }
    { ctype := 3, entity := some 1 }
    (by decide) (by decide) (by decide) (by decide) (by decide) (by decide) (by decide)
  exact h

/-- Claim C4: When the component's type is not yet attached, `add_component`
establishes the entity-component link and the World's type-index update
before invoking the `on_add` hook: the state handed to an arbitrary hook
already maps the type to the component, carries the back-reference, and
indexes the entity under the type; and the operation returns the entity
itself. -/
theorem add_component_hook_after_link (hook : World → Nat → Nat → World)
    (w : World) (eid cid : Nat) (e : Entity) (c : Component)
    (he : w.entityStore eid = some e) (hc : w.comps cid = some c)
    (hnew : alookup e.components c.ctype = none) :
    add_componentH hook w eid cid = (hook (addPreHookState w eid cid e c) eid cid, .ok eid) ∧
    (addPreHookState w eid cid e c).entityStore eid =
      some { e with components := (c.ctype, cid) :: e.components } ∧
    (addPreHookState w eid cid e c).comps cid = some { c with entity := some eid } ∧
    eid ∈ (addPreHookState w eid cid e c).typeIndex c.ctype := by
  refine ⟨?_, ?_, ?_, ?_⟩ <;>
    simp [add_componentH, addPreHookState, he, hc, hnew, entityComponentAdded, upd]

/-- Witness for C4: attaching component 7 (type 3) to entity 1 in `wComp`,
with the identity hook. -/
theorem add_component_hook_after_link_witness :
    add_componentH (fun w' _ _ => w') wComp 1 7 =
      ((fun w' _ _ => w')
        (addPreHookState wComp 1 7
          { id := .vStr "u1", components := [], tags := [], active := true }
          { ctype := 3, entity := none }) 1 7, .ok 1) ∧
    (addPreHookState wComp 1 7
        { id := .vStr "u1", components := [], tags := [], active := true }
        { ctype := 3, entity := none }).entityStore 1 =
      some { id := .vStr "u1", components := [(3, 7)], tags := [], active := true } ∧
    (addPreHookState wComp 1 7
        { id := .vStr "u1", components := [], tags := [], active := true }
        { ctype := 3, entity := none }).comps 7 = some { ctype := 3, entity := some 1 } ∧
    1 ∈ (addPreHookState wComp 1 7
        { id := .vStr "u1", components := [], tags := [], active := true }
        { ctype := 3, entity := none }).typeIndex 3 :=
  add_component_hook_after_link (fun w' _ _ => w') wComp 1 7
    { id := .vStr "u1", components := [], tags := [], active := true }
    { ctype := 3, entity := none }
    (by decide) (by decide) (by decide)

/-- Claim C5: `remove_component`: when the type is absent it returns `none`
and the world is completely unchanged; when present it applies the
`on_remove` hook to the still-intact state before the deletion
(`removePostHook` runs on the hook's result), removes the type from the
entity's mapping, erases the entity from the type index, and returns the
detached component. -/
theorem remove_component_contract (hook : World → Nat → Nat → World)
    (w : World) (eid T : Nat) (e : Entity)
    (he : w.entityStore eid = some e) :
    (alookup e.components T = none → remove_componentH hook w eid T = (w, none)) ∧
    (∀ cid, alookup e.components T = some cid →
      remove_componentH hook w eid T = (removePostHook (hook w eid cid) eid T, some cid) ∧
      (remove_component w eid T).1.entityStore eid =
        some { e with components := aerase e.components T } ∧
      alookup (aerase e.components T) T = none ∧
      eid ∉ (remove_component w eid T).1.typeIndex T ∧
      (remove_component w eid T).2 = some cid) := by
  constructor
  · intro h
    simp [remove_componentH, he, h]
  · intro cid h
    refine ⟨by simp [remove_componentH, he, h], ?_, alookup_aerase_self _ _, ?_, ?_⟩
    · simp [remove_component, remove_componentH, he, h, removePostHook,
        entityComponentRemoved, upd]
    · simp [remove_component, remove_componentH, he, h, removePostHook,
        entityComponentRemoved, upd]
    · simp [remove_component, remove_componentH, he, h]

/-- Witness for C5 on `wAttached`: removing type 3 from entity 1 (present
case) with the identity hook. -/
theorem remove_component_contract_witness :
    (alookup [(3, 7)] 3 = some 7) ∧
    (remove_componentH (fun w' _ _ => w') wAttached 1 3 =
      (removePostHook wAttached 1 3, some 7) ∧
    (remove_component wAttached 1 3).1.entityStore 1 =
      some { id := .vStr "u1", components := aerase [(3, 7)] 3, tags := [], active := true } ∧
    alookup (aerase [(3, 7)] 3) 3 = none ∧
    1 ∉ (remove_component wAttached 1 3).1.typeIndex 3 ∧
    (remove_component wAttached 1 3).2 = some 7) :=
  ⟨by decide,
   (remove_component_contract (fun w' _ _ => w') wAttached 1 3
      { id := .vStr "u1", components := [(3, 7)], tags := [], active := true }
      (by decide)).2 7 (by decide)⟩

/-- Claim C9: `remove_component` hands back the component object entirely
unchanged: it is removed from the entity's mapping, but its fields — in
particular the entity back-reference — keep their values, so `get_entity`
still returns the former owner after detachment. -/
theorem remove_component_preserves_instance (w : World) (eid T cid : Nat)
    (e : Entity) (c : Component)
    (he : w.entityStore eid = some e) (hin : alookup e.components T = some cid)
    (hc : w.comps cid = some c) (hback : c.entity = some eid) :
    (remove_component w eid T).2 = some cid ∧
    (remove_component w eid T).1.comps cid = some c ∧
    get_entity c = some eid ∧
    ((remove_component w eid T).1.entityStore eid).map Entity.components =
      some (aerase e.components T) ∧
    alookup (aerase e.components T) T = none := by
  refine ⟨?_, ?_, hback, ?_, alookup_aerase_self _ _⟩ <;>
    simp [remove_component, remove_componentH, he, hin, hc, removePostHook,
      entityComponentRemoved, upd, get_entity]

theorem IndexInv_attach (w : World) (eid cid : Nat) (h : IndexInv w) :
    IndexInv (add_component w eid cid).1 := by
  unfold add_component add_componentH
  cases hw : w.entityStore eid with
  | none => cases hc : w.comps cid <;> simpa using h
  | some e =>
    cases hc : w.comps cid with
    | none => simpa using h
    | some c =>
      by_cases hdup : (alookup e.components c.ctype).isSome
      · simpa [hdup] using h
      · simp only [hdup, Bool.false_eq_true, if_neg, ite_false]
        intro T eid'
        by_cases hT : T = c.ctype
        · by_cases he' : eid' = eid
          · simp [hT, he', entityComponentAdded, upd, alookup]
          · simpa [hT, he', entityComponentAdded, upd] using h c.ctype eid'
        · by_cases he' : eid' = eid
          · have hT' : ¬ (c.ctype = T) := fun hh => hT hh.symm
            simpa [hT, he', hT', entityComponentAdded, upd, alookup, hw] using h T eid
          · simpa [hT, he', entityComponentAdded, upd] using h T eid'

theorem IndexInv_detach (w : World) (eid T0 : Nat) (h : IndexInv w) :
    IndexInv (remove_component w eid T0).1 := by
  unfold remove_component remove_componentH
  cases hw : w.entityStore eid with
  | none => simpa using h
  | some e =>
    cases hl : alookup e.components T0 with
    | none => simpa [hl] using h
    | some cid =>
      simp only [hl]
      intro T eid'
      by_cases hT : T = T0
      · by_cases he' : eid' = eid
        · simp [hT, he', removePostHook, entityComponentRemoved, upd, hw,
            alookup_aerase_self]
        · simpa [hT, he', removePostHook, entityComponentRemoved, upd, hw] using h T0 eid'
      · by_cases he' : eid' = eid
        · simpa [hT, he', removePostHook, entityComponentRemoved, upd, hw,
            alookup_aerase_ne e.components T0 T hT] using h T eid
        · simpa [hT, he', removePostHook, entityComponentRemoved, upd, hw] using h T eid'

theorem IndexInv_add_tag (w : World) (eid tg : Nat) (h : IndexInv w) :
    IndexInv (add_tag w eid tg) := by
  unfold add_tag entityTagAdded
  cases hw : w.entityStore eid with
  | none => simpa using h
  | some e =>
    intro T eid'
    by_cases he' : eid' = eid
    · subst he'
      simpa [upd, hw] using h T eid'
    · simpa [upd, he'] using h T eid'

theorem IndexInv_remove_tag (w : World) (eid tg : Nat) (h : IndexInv w) :
    IndexInv (remove_tag w eid tg).1 := by
  unfold remove_tag entityTagRemoved
  cases hw : w.entityStore eid with
  | none => simpa using h
  | some e =>
    by_cases ht : tg ∈ e.tags
    · simp only [ht, if_pos]
      intro T eid'
      by_cases he' : eid' = eid
      · subst he'
        simpa [upd, hw] using h T eid'
      · simpa [upd, he'] using h T eid'
    · simpa [ht] using h

theorem IndexInv_set_active (w : World) (eid : Nat) (b : Bool) (h : IndexInv w) :
    IndexInv (set_active w eid b) := by
  unfold set_active entityActiveChanged
  cases hw : w.entityStore eid with
  | none => simpa using h
  | some e =>
    by_cases hb : e.active = b
    · simpa [hb] using h
    · intro T eid'
      by_cases he' : eid' = eid
      · simpa [hb, he', upd, hw] using h T eid
      · simpa [hb, he', upd] using h T eid'

theorem IndexInv_applyOp (w : World) (op : Op) (h : IndexInv w) :
    IndexInv (applyOp w op) := by
  cases op with
  | attach eid cid => exact IndexInv_attach w eid cid h
  | detach eid t => exact IndexInv_detach w eid t h
  | addTagOp eid t => exact IndexInv_add_tag w eid t h
  | removeTagOp eid t => exact IndexInv_remove_tag w eid t h
  | activate eid b => exact IndexInv_set_active w eid b h

theorem IndexInv_applyOps (w : World) (ops : List Op) (h : IndexInv w) :
    IndexInv (applyOps w ops) := by
  induction ops generalizing w with
  | nil => exact h
  | cons op ops ih => exact ih _ (IndexInv_applyOp w op h)

theorem query_singleton_mem (w : World) (hInv : IndexInv w) (T eid : Nat)
    (inc : Bool) :
    eid ∈ query w [T] inc ↔
      ∃ e, w.entityStore eid = some e ∧ (inc || e.active) = true ∧
        (alookup e.components T).isSome = true := by
  have h := hInv T eid
  unfold query
  simp only [List.foldl, List.mem_filter]
  cases hw : w.entityStore eid with
  | none =>
    simp only [hw] at h
    simp [hw, h]
  | some e =>
    simp only [hw] at h
    simp [hw, h]
    tauto

/-- Claim C1: For every sequence of attach/detach/tag/activate operations on
a world whose type index is consistent, `query [T]` with
`include_inactive = false` contains exactly the active entities whose
component mapping holds type `T`; with `include_inactive = true` the
active-flag condition is dropped. -/
theorem query_after_ops (w : World) (ops : List Op) (T eid : Nat)
    (hInv : IndexInv w) :
    (eid ∈ query (applyOps w ops) [T] false ↔
      ∃ e, (applyOps w ops).entityStore eid = some e ∧ e.active = true ∧
        (alookup e.components T).isSome = true) ∧
    (eid ∈ query (applyOps w ops) [T] true ↔
      ∃ e, (applyOps w ops).entityStore eid = some e ∧
        (alookup e.components T).isSome = true) := by
  have hInv' := IndexInv_applyOps w ops hInv
  constructor
  · simpa using query_singleton_mem _ hInv' T eid false
  · simpa using query_singleton_mem _ hInv' T eid true

theorem IndexInv_emptyWorld : IndexInv emptyWorld := by
  intro T eid
  simp [emptyWorld]

theorem IndexInv_createEntity (w : World) (eid : Nat) (v : PyVal) (u : String)
    (h : IndexInv w) (hfresh : w.entityStore eid = none) :
    IndexInv (createEntity w eid v u) := by
  unfold createEntity
  intro T eid'
  by_cases he' : eid' = eid
  · subst he'
    have := h T eid'
    simp only [hfresh] at this
    simp [upd, alookup, this]
  · simpa [upd, he'] using h T eid'

theorem IndexInv_wAttached : IndexInv wAttached :=
  IndexInv_attach wComp 1 7
    (IndexInv_createEntity _ 2 .vNone "u2"
      (IndexInv_createEntity emptyWorld 1 .vNone "u1" IndexInv_emptyWorld rfl) rfl)

/-- Witness for C1: the consistent world `wAttached` with the operation
sequence that deactivates entity 1, queried for type 3. -/
theorem query_after_ops_witness :
    IndexInv wAttached ∧
    ((1 ∈ query (applyOps wAttached [Op.activate 1 false]) [3] false ↔
      ∃ e, (applyOps wAttached [Op.activate 1 false]).entityStore 1 = some e ∧
        e.active = true ∧ (alookup e.components 3).isSome = true) ∧
    (1 ∈ query (applyOps wAttached [Op.activate 1 false]) [3] true ↔
      ∃ e, (applyOps wAttached [Op.activate 1 false]).entityStore 1 = some e ∧
        (alookup e.components 3).isSome = true)) :=
  ⟨IndexInv_wAttached,
   query_after_ops wAttached [Op.activate 1 false] 3 1 IndexInv_wAttached⟩

theorem destroyLoop_store (keys : List Nat) : ∀ (w : World) (eid : Nat) (e : Entity),
    w.entityStore eid = some e →
    (keys.foldl (fun wa t => (remove_component wa eid t).1) w).entityStore eid =
      some { e with components := keys.foldl aerase e.components } := by
  induction keys with
  | nil =>
    intro w eid e he
    simpa using he
  | cons k ks ih =>
    intro w eid e he
    have hstep : ((remove_component w eid k).1).entityStore eid =
        some { e with components := aerase e.components k } := by
      unfold remove_component remove_componentH
      cases hl : alookup e.components k with
      | none => simp [he, hl, aerase_of_alookup_none _ _ hl]
      | some cid => simp [he, hl, removePostHook, entityComponentRemoved, upd]
    simpa [List.foldl] using ih _ eid _ hstep

theorem foldl_aerase_nil (keys : List Nat) : ∀ (l : List (Nat × Nat)),
    (∀ p ∈ l, p.1 ∈ keys) → keys.foldl aerase l = [] := by
  induction keys with
  | nil =>
    intro l h
    cases l with
    | nil => rfl
    | cons p ps => exact absurd (h p (by simp)) (by simp)
  | cons k ks ih =>
    intro l h
    simp only [List.foldl]
    apply ih
    intro p hp
    have hpl : p ∈ l ∧ ¬ (p.1 = k) := by
      simpa [aerase, List.mem_filter] using hp
    have := h p hpl.1
    simp only [List.mem_cons] at this
    exact this.resolve_left hpl.2

theorem mem_foldl_filter_base (ts : List Nat) :
    ∀ (base : List Nat) (p : Nat → Nat → Bool) (x : Nat),
    x ∈ ts.foldl (fun acc t => acc.filter (p t)) base → x ∈ base := by
  induction ts with
  | nil =>
    intro base p x hx
    simpa using hx
  | cons t ts ih =>
    intro base p x hx
    have := ih (base.filter (p t)) p x (by simpa [List.foldl] using hx)
    exact (List.mem_filter.mp this).1

/-- Claim C6: `destroy` detaches every component (one complete
`remove_component`, hook included, per component type, folded in sequence)
and then erases the entity from the World: afterwards the entity object's
component mapping is empty and the entity id is absent from the registry,
from every per-type and per-tag index, and from every subsequent query
result, for every requested component set and both values of
`include_inactive`. -/
theorem destroy_finality (w : World) (eid : Nat) (e : Entity)
    (he : w.entityStore eid = some e) :
    (destroy w eid).entityStore eid = some { e with components := [] } ∧
    (∀ T, eid ∉ (destroy w eid).typeIndex T) ∧
    (∀ tg, eid ∉ (destroy w eid).tagIndex tg) ∧
    eid ∉ (destroy w eid).live ∧
    (∀ req inc, eid ∉ query (destroy w eid) req inc) := by
  unfold destroy
  simp only [he]
  set keys := e.components.map (fun p => p.1) with hkeys
  set w1 := keys.foldl (fun wa t => (remove_component wa eid t).1) w with hw1
  have hstore : w1.entityStore eid = some { e with components := [] } := by
    have h1 := destroyLoop_store keys w eid e he
    have h2 : keys.foldl aerase e.components = [] := by
      apply foldl_aerase_nil
      intro p hp
      rw [hkeys]
      exact List.mem_map.mpr ⟨p, hp, rfl⟩
    rw [← hw1] at h1
    rw [h1, h2]
  refine ⟨?_, ?_, ?_, ?_, ?_⟩
  · simpa [removeEntity] using hstore
  · intro T
    simp [removeEntity, List.mem_filter]
  · intro tg
    simp [removeEntity, List.mem_filter]
  · simp [removeEntity, List.mem_filter]
  · intro req inc
    intro hmem
    unfold query at hmem
    have hcand := (List.mem_filter.mp hmem).1
    cases req with
    | nil =>
      simp only [removeEntity] at hcand
      exact absurd hcand (by simp [List.mem_filter])
    | cons t ts =>
      have hbase := mem_foldl_filter_base ts _ _ eid hcand
      simp only [removeEntity] at hbase
      exact absurd hbase (by simp [List.mem_filter])

/-- Witness for C6: destroying entity 1 in `wAttached`. -/
theorem destroy_finality_witness :
    (destroy wAttached 1).entityStore 1 =
      some { id := .vStr "u1", components := [], tags := [], active := true } ∧
    (∀ T, 1 ∉ (destroy wAttached 1).typeIndex T) ∧
    (∀ tg, 1 ∉ (destroy wAttached 1).tagIndex tg) ∧
    1 ∉ (destroy wAttached 1).live ∧
    (∀ req inc, 1 ∉ query (destroy wAttached 1) req inc) :=
  destroy_finality wAttached 1
    { id := .vStr "u1", components := [(3, 7)], tags := [], active := true }
    (by decide)

/-- Witness for C9 on `wAttached`: detaching type 3 from entity 1 returns
component 7 whose back-reference still points at entity 1. -/
theorem remove_component_preserves_instance_witness :
    (remove_component wAttached 1 3).2 = some 7 ∧
    (remove_component wAttached 1 3).1.comps 7 = some { ctype := 3, entity := some 1 } ∧
    get_entity { ctype := 3, entity := some 1 } = some 1 ∧
    ((remove_component wAttached 1 3).1.entityStore 1).map Entity.components =
      some (aerase [(3, 7)] 3) ∧
    alookup (aerase [(3, 7)] 3) 3 = none :=
  remove_component_preserves_instance wAttached 1 3 7
    { id := .vStr "u1", components := [(3, 7)], tags := [], active := true }
    { ctype := 3, entity := some 1 }
    (by decide) (by decide) (by decide) (by decide)

end ECS

namespace Player

/-- Claim C8: A key pressed this frame but not the previous frame triggers
the interaction once; holding it into the next frame triggers nothing:
over the two consecutive frames the callback is invoked exactly once, on
the first frame. -/
theorem interaction_edge_once (st0 : InputState) (cur1 cur2 : List Nat) (k : Nat)
    (hk0 : k ∉ st0.keys_pressed) (h1 : k ∈ cur1) (_h2 : k ∈ cur2) :
    process_interaction k true (updateInputState st0 cur1).keys_just_pressed = true ∧
    process_interaction k true
      (updateInputState (updateInputState st0 cur1) cur2).keys_just_pressed = false ∧
    interactionCount k true (updateInputState st0 cur1).keys_just_pressed +
      interactionCount k true
        (updateInputState (updateInputState st0 cur1) cur2).keys_just_pressed = 1 := by
  have hj1 : k ∈ (updateInputState st0 cur1).keys_just_pressed := by
    simp [updateInputState, List.mem_filter, h1, hk0]
  have hj2 : k ∉ (updateInputState (updateInputState st0 cur1) cur2).keys_just_pressed := by
    simp [updateInputState, List.mem_filter, h1]
  refine ⟨?_, ?_, ?_⟩
  · simp [process_interaction, hj1]
  · simp [process_interaction, hj2]
  · simp [interactionCount, process_interaction, hj1, hj2]

/-- Witness for C8: the interact key `K_e = 101` held for two frames from
an idle input state. -/
theorem interaction_edge_once_witness :
    process_interaction 101 true
      (updateInputState ⟨[], [], []⟩ [101]).keys_just_pressed = true ∧
    process_interaction 101 true
      (updateInputState (updateInputState ⟨[], [], []⟩ [101]) [101]).keys_just_pressed = false ∧
    interactionCount 101 true (updateInputState ⟨[], [], []⟩ [101]).keys_just_pressed +
      interactionCount 101 true
        (updateInputState (updateInputState ⟨[], [], []⟩ [101]) [101]).keys_just_pressed = 1 :=
  interaction_edge_once ⟨[], [], []⟩ [101] [101] 101
    (by decide) (by decide) (by decide)

theorem diagDisplacement_eq :
    diagDisplacement = (150 / Real.sqrt 2, -(150 / Real.sqrt 2)) := by
  unfold diagDisplacement process_input defaultPCConfig initialPCState diagKeys
  norm_num
  constructor
  · ring_nf
  · ring_nf

theorem sqrt_two_gt : (1.41421 : ℝ) < Real.sqrt 2 := by
  rw [Real.lt_sqrt (by norm_num)]
  norm_num

theorem sqrt_two_lt : Real.sqrt 2 < 1.41422 := by
  rw [Real.sqrt_lt' (by norm_num)]
  norm_num

/-- Claim C7: With `move_speed = 150`, no sprint, `dt = 1`, and "up" and
"right" pressed together, the displacement has magnitude exactly 150 in
the idealised reals, is split evenly between the axes (`y = -x`), each
axis component is within 0.01 of ±106.07, and it is not the unnormalised
`(150, -150)`. -/
theorem diag_input_normalized :
    Real.sqrt (diagDisplacement.1 ^ 2 + diagDisplacement.2 ^ 2) = 150 ∧
    |diagDisplacement.1 - 106.07| < 0.01 ∧
    |diagDisplacement.2 + 106.07| < 0.01 ∧
    diagDisplacement.2 = -diagDisplacement.1 ∧
    diagDisplacement ≠ (150, -150) := by
  have hs2 : Real.sqrt 2 ^ 2 = 2 := Real.sq_sqrt (by norm_num)
  have hspos : 0 < Real.sqrt 2 := Real.sqrt_pos.mpr (by norm_num)
  have hgt := sqrt_two_gt
  have hlt := sqrt_two_lt
  have hxlo : (106.06 : ℝ) < 150 / Real.sqrt 2 := by
    rw [lt_div_iff₀ hspos]
    nlinarith
  have hxhi : 150 / Real.sqrt 2 < (106.08 : ℝ) := by
    rw [div_lt_iff₀ hspos]
    nlinarith
  rw [diagDisplacement_eq]
  refine ⟨?_, ?_, ?_, ?_, ?_⟩
  · have hsum : (150 / Real.sqrt 2) ^ 2 + (-(150 / Real.sqrt 2)) ^ 2 = 22500 := by
      field_simp
      nlinarith
    rw [hsum, show (22500 : ℝ) = 150 ^ 2 by norm_num, Real.sqrt_sq (by norm_num)]
  · rw [abs_lt]
    constructor <;> nlinarith
  · rw [abs_lt]
    constructor <;> nlinarith
  · norm_num
  · intro hcontra
    have hx : 150 / Real.sqrt 2 = (150 : ℝ) := congrArg Prod.fst hcontra
    nlinarith

end Player
